import Mathlib

/-!
Verification development for the train-ai-api service (src/main.py).

The service exposes `POST /workout`: it validates an inbound JSON body into
an `ExerciseHistory` pydantic model, composes a two-message prompt, invokes
the OpenAI chat-completions API through `chat_completion_request` (wrapped
in a tenacity retry decorator), and extracts the `activities` array from the
first tool call's JSON arguments.

The embedding below models JSON values, Python's `json.loads`, the pydantic
validation of the request body, the tenacity retry combinator, the exception
flow of `chat_completion_request` (which catches every exception inside the
body and returns it as a value), and the `read_root` handler.
-/

namespace TrainAI

/-- JSON values as produced by Python's `json` module.  Numbers are kept in
exact decimal form as `mant * 10 ^ exp`; object member lists keep source
order, and lookups take the last binding to mirror Python dict semantics
(later duplicate keys win in `json.loads`). -/
inductive Json where
  | null : Json
  | bool (b : Bool) : Json
  | num (mant : Int) (exp : Int) : Json
  | str (s : String) : Json
  | arr (elems : List Json) : Json
  | obj (members : List (String × Json)) : Json

/-- Python-dict lookup on a member list: the last binding of a key wins. -/
def lookupLast (kvs : List (String × Json)) (k : String) : Option Json :=
  match kvs with
  | [] => none
  | (k2, v) :: rest =>
    match lookupLast rest k with
    | some v2 => some v2
    | none => if k2 = k then some v else none

/-- Field access on a JSON object (`d[k]` on a dict), `none` otherwise. -/
def jget : Json → String → Option Json
  | .obj kvs, k => lookupLast kvs k
  | _, _ => none

/-- Index access on a JSON array, `none` otherwise. -/
def jidx : Json → Nat → Option Json
  | .arr xs, i => xs.get? i
  | _, _ => none

/-- Skip JSON whitespace. -/
def skipWs : List Char → List Char
  | [] => []
  | c :: cs => if c = ' ' || c = '\t' || c = '\n' || c = '\r' then skipWs cs else c :: cs

def isDigitChar (c : Char) : Bool := '0' ≤ c && c ≤ '9'

def digitVal (c : Char) : Nat := c.toNat - 48

/-- Split a leading run of decimal digits off a character list. -/
def takeDigits : List Char → List Char × List Char
  | [] => ([], [])
  | c :: cs =>
    if isDigitChar c then
      let (ds, rest) := takeDigits cs
      (c :: ds, rest)
    else ([], c :: cs)

def digitsToNat (ds : List Char) : Nat := ds.foldl (fun a c => a * 10 + digitVal c) 0

def hexVal (c : Char) : Option Nat :=
  if '0' ≤ c && c ≤ '9' then some (c.toNat - 48)
  else if 'a' ≤ c && c ≤ 'f' then some (c.toNat - 87)
  else if 'A' ≤ c && c ≤ 'F' then some (c.toNat - 55)
  else none

/-- Parse the body of a JSON string literal (after the opening quote),
handling the standard escapes, up to and past the closing quote. -/
def parseStrChars : Nat → List Char → Option (List Char × List Char)
  | 0, _ => none
  | _, [] => none
  | fuel + 1, c :: cs =>
    if c = '\"' then some ([], cs)
    else if c = '\\' then
      match cs with
      | [] => none
      | e :: cs2 =>
        let esc : Option (Char × List Char) :=
          if e = '\"' then some ('\"', cs2)
          else if e = '\\' then some ('\\', cs2)
          else if e = '/' then some ('/', cs2)
          else if e = 'b' then some ('\x08', cs2)
          else if e = 'f' then some ('\x0c', cs2)
          else if e = 'n' then some ('\n', cs2)
          else if e = 'r' then some ('\r', cs2)
          else if e = 't' then some ('\t', cs2)
          else if e = 'u' then
            match cs2 with
            | h1 :: h2 :: h3 :: h4 :: cs3 =>
              match hexVal h1, hexVal h2, hexVal h3, hexVal h4 with
              | some a, some b, some c2, some d =>
                some (Char.ofNat (((a * 16 + b) * 16 + c2) * 16 + d), cs3)
              | _, _, _, _ => none
            | _ => none
          else none
        match esc with
        | none => none
        | some (ch, rest) =>
          match parseStrChars fuel rest with
          | none => none
          | some (out, r2) => some (ch :: out, r2)
    else if c.toNat < 32 then none
    else
      match parseStrChars fuel cs with
      | none => none
      | some (out, r2) => some (c :: out, r2)

/-- Parse the optional fractional part of a JSON number. -/
def parseFrac (cs : List Char) : Option (List Char × List Char) :=
  match cs with
  | '.' :: rest =>
    match takeDigits rest with
    | ([], _) => none
    | (ds, r) => some (ds, r)
  | _ => some ([], cs)

def parseExpTail (cs : List Char) : Option (Int × List Char) :=
  let (sgn, cs1) : Int × List Char :=
    match cs with
    | '+' :: r => (1, r)
    | '-' :: r => (-1, r)
    | _ => (1, cs)
  match takeDigits cs1 with
  | ([], _) => none
  | (ds, r) => some (sgn * (digitsToNat ds : Int), r)

/-- Parse the optional exponent part of a JSON number. -/
def parseExp (cs : List Char) : Option (Int × List Char) :=
  match cs with
  | 'e' :: rest => parseExpTail rest
  | 'E' :: rest => parseExpTail rest
  | _ => some (0, cs)

/-- Parse a JSON number (sign, integer part without leading zeros, optional
fraction and exponent) into exact decimal form. -/
def parseNum (cs : List Char) : Option (Json × List Char) :=
  let (neg, cs1) :=
    match cs with
    | '-' :: rest => (true, rest)
    | _ => (false, cs)
  match takeDigits cs1 with
  | ([], _) => none
  | (intDs, cs2) =>
    if intDs.length > 1 && intDs.headD 'x' = '0' then none
    else
      match parseFrac cs2 with
      | none => none
      | some (fracDs, cs3) =>
        match parseExp cs3 with
        | none => none
        | some (e, cs4) =>
          let mantNat := digitsToNat (intDs ++ fracDs)
          let mant : Int := if neg then -(mantNat : Int) else (mantNat : Int)
          some (.num mant (e - (fracDs.length : Int)), cs4)

mutual

/-- Parse one JSON value; `fuel` bounds the recursion depth. -/
def parseVal : Nat → List Char → Option (Json × List Char)
  | 0, _ => none
  | fuel + 1, cs =>
    match skipWs cs with
    | 'n' :: 'u' :: 'l' :: 'l' :: rest => some (.null, rest)
    | 't' :: 'r' :: 'u' :: 'e' :: rest => some (.bool true, rest)
    | 'f' :: 'a' :: 'l' :: 's' :: 'e' :: rest => some (.bool false, rest)
    | '\"' :: rest =>
      match parseStrChars (rest.length + 1) rest with
      | none => none
      | some (chars, r) => some (.str (String.mk chars), r)
    | '[' :: rest =>
      match skipWs rest with
      | ']' :: r2 => some (.arr [], r2)
      | r2 =>
        match parseElems fuel r2 with
        | none => none
        | some (xs, r3) => some (.arr xs, r3)
    | '\x7b' :: rest =>
      match skipWs rest with
      | '\x7d' :: r2 => some (.obj [], r2)
      | r2 =>
        match parseMembers fuel r2 with
        | none => none
        | some (kvs, r3) => some (.obj kvs, r3)
    | other => parseNum other

/-- Parse the elements of a non-empty JSON array, consuming the closing
bracket. -/
def parseElems : Nat → List Char → Option (List Json × List Char)
  | 0, _ => none
  | fuel + 1, cs =>
    match parseVal fuel cs with
    | none => none
    | some (j, r) =>
      match skipWs r with
      | ',' :: r2 =>
        match parseElems fuel r2 with
        | none => none
        | some (xs, r3) => some (j :: xs, r3)
      | ']' :: r2 => some ([j], r2)
      | _ => none

/-- Parse the members of a non-empty JSON object, consuming the closing
brace. -/
def parseMembers : Nat → List Char → Option (List (String × Json) × List Char)
  | 0, _ => none
  | fuel + 1, cs =>
    match skipWs cs with
    | '\"' :: r =>
      match parseStrChars (r.length + 1) r with
      | none => none
      | some (kchars, r1) =>
        match skipWs r1 with
        | ':' :: r2 =>
          match parseVal fuel r2 with
          | none => none
          | some (v, r3) =>
            match skipWs r3 with
            | ',' :: r4 =>
              match parseMembers fuel r4 with
              | none => none
              | some (kvs, r5) => some ((String.mk kchars, v) :: kvs, r5)
            | '\x7d' :: r4 => some ([(String.mk kchars, v)], r4)
            | _ => none
        | _ => none
    | _ => none

end

/-- Model of Python's `json.loads`: parse a complete JSON document, allowing
surrounding whitespace; `none` models a raised `json.JSONDecodeError`.  The
fuel `2 * length + 4` dominates the recursion depth, which is bounded by the
input length. -/
def json_loads (s : String) : Option Json :=
  match parseVal (2 * s.data.length + 4) s.data with
  | none => none
  | some (j, rest) => if skipWs rest = [] then some j else none


/-! ## Pydantic data model (src/main.py lines 301-309) -/

/-- Exact decimal representation of a Python float as validated from JSON:
the value `mant * 10 ^ exp`.  The service only carries these values through
to the prompt rendering, so no float arithmetic is modelled. -/
structure JNum where
  mant : Int
  exp : Int
deriving Repr, DecidableEq

/-- The pydantic model `Data` (`avg_split: float`, `avg_distance: float`). -/
structure Data where
  avg_split : JNum
  avg_distance : JNum
deriving Repr, DecidableEq

/-- The pydantic model `ExerciseHistory`
(`athlete_type: str`, `data: Union[Data, None] = None`, `description: str`).
Note `athlete_type` is declared as a plain `str` in the source, not an enum. -/
structure ExerciseHistory where
  athlete_type : String
  data : Option Data := none
  description : String
deriving Repr, DecidableEq

/-- Validation errors raised by pydantic, tagged with the failing location.
FastAPI surfaces these as an HTTP 422 response. -/
inductive VError where
  | missing (loc : List String)
  | notFloat (loc : List String)
  | notString (loc : List String)
  | notModel (loc : List String)
  | bodyNotObject
deriving Repr, DecidableEq

/-- Pydantic lax coercion to `float`: accepts a JSON number, or a string
that is (after stripping whitespace) a decimal number literal; everything
else (null, bool, array, object, non-numeric string) fails. -/
def coerceFloat : Json → Option JNum
  | .num m e => some ⟨m, e⟩
  | .str s =>
    match parseNum (skipWs s.data) with
    | some (.num m e, rest) => if skipWs rest = [] then some ⟨m, e⟩ else none
    | _ => none
  | _ => none

/-- Pydantic validation of a `str` field: only a JSON string is accepted. -/
def coerceStr : Json → Option String
  | .str s => some s
  | _ => none

/-- Pydantic validation of the nested `Data` model. -/
def validateData : Json → Except VError Data
  | .obj kvs =>
    match lookupLast kvs "avg_split" with
    | none => .error (.missing ["data", "avg_split"])
    | some v1 =>
      match coerceFloat v1 with
      | none => .error (.notFloat ["data", "avg_split"])
      | some a =>
        match lookupLast kvs "avg_distance" with
        | none => .error (.missing ["data", "avg_distance"])
        | some v2 =>
          match coerceFloat v2 with
          | none => .error (.notFloat ["data", "avg_distance"])
          | some b => .ok ⟨a, b⟩
  | _ => .error (.notModel ["data"])

/-- Pydantic validation of the request body against `ExerciseHistory`:
`athlete_type` must be a string (any string — no enum check in the source),
`data` is optional (absent or null gives `none`, otherwise it must validate
as `Data`), `description` must be a string.  Unknown keys are ignored. -/
def validateEH : Json → Except VError ExerciseHistory
  | .obj kvs =>
    match lookupLast kvs "athlete_type" with
    | none => .error (.missing ["athlete_type"])
    | some tv =>
      match coerceStr tv with
      | none => .error (.notString ["athlete_type"])
      | some t =>
        match
          (match lookupLast kvs "data" with
           | none => Except.ok (none : Option Data)
           | some .null => Except.ok none
           | some dv =>
             match validateData dv with
             | .ok d => Except.ok (some d)
             | .error e => Except.error e : Except VError (Option Data)) with
        | .error e => .error e
        | .ok d =>
          match lookupLast kvs "description" with
          | none => .error (.missing ["description"])
          | some dsv =>
            match coerceStr dsv with
            | none => .error (.notString ["description"])
            | some ds => .ok ⟨t, d, ds⟩
  | _ => .error .bodyNotObject

/-! ## Debug-style rendering (`str(exerciseHistory)`, pydantic `__str__`) -/

def natDigitsAux : Nat → Nat → List Char
  | 0, _ => []
  | fuel + 1, n =>
    if n < 10 then [Char.ofNat (48 + n)]
    else natDigitsAux fuel (n / 10) ++ [Char.ofNat (48 + n % 10)]

def natDigits (n : Nat) : List Char := natDigitsAux (n + 1) n

/-- Rendering of a float value in Python `repr` style: an integral value is
shown with a trailing `.0`, a fractional value with its decimal digits. -/
def renderJNum (x : JNum) : String :=
  let sign := if x.mant < 0 then "-" else ""
  let ma := x.mant.natAbs
  if 0 ≤ x.exp then
    sign ++ String.mk (natDigits ma ++ List.replicate x.exp.toNat '0') ++ ".0"
  else
    let k := (-x.exp).toNat
    let ds0 := natDigits ma
    let ds := if ds0.length ≤ k then List.replicate (k + 1 - ds0.length) '0' ++ ds0 else ds0
    sign ++ String.mk (ds.take (ds.length - k)) ++ "." ++ String.mk (ds.drop (ds.length - k))

/-- Python `repr` of a string in the common case: single quotes around the
text. -/
def pyStrRepr (s : String) : String := "\x27" ++ s ++ "\x27"

/-- `str(Data(...))` in pydantic repr style. -/
def strData (d : Data) : String :=
  "Data(avg_split=" ++ renderJNum d.avg_split ++ ", avg_distance=" ++ renderJNum d.avg_distance ++ ")"

/-- `str(exerciseHistory)`: pydantic renders every field in order as
`name=repr(value)`, space separated, with `None` for an absent `data`. -/
def strExerciseHistory (eh : ExerciseHistory) : String :=
  "athlete_type=" ++ pyStrRepr eh.athlete_type ++ " data=" ++
    (match eh.data with
     | none => "None"
     | some d => strData d) ++
  " description=" ++ pyStrRepr eh.description

/-! ## Constants (src/main.py lines 8-295) -/

def GPT_MODEL : String := "gpt-4o"

/-- The JSON-Schema object for one activity item inside the `activities`
array of the tool schema.  Note it carries no `required` list of its own. -/
def activityItemSchema : Json :=
  .obj [
    ("type", .str "object"),
    ("properties", .obj [
      ("activityName", .obj [("type", .str "string")]),
      ("description", .obj [("type", .str "string")]),
      ("day", .obj [
        ("type", .str "string"),
        ("enum", .arr [.str "Sunday", .str "Monday", .str "Tuesday", .str "Wednesday",
                       .str "Thursday", .str "Friday", .str "Saturday"])]),
      ("sets", .obj [("type", .str "integer")]),
      ("reps", .obj [("type", .str "integer")])])]

/-- The top-level `parameters` object of the `get_workout_program` function
schema.  Its only property is `activities`; the `required` list naming
`activityName`, `description` and `day` sits at this level in the source. -/
def workoutParameters : Json :=
  .obj [
    ("type", .str "object"),
    ("properties", .obj [
      ("activities", .obj [
        ("type", .str "array"),
        ("items", activityItemSchema)])]),
    ("required", .arr [.str "activityName", .str "description", .str "day"])]

/-- The static `TOOLS` list passed to the model on every call. -/
def TOOLS : Json :=
  .arr [
    .obj [
      ("type", .str "function"),
      ("function", .obj [
        ("name", .str "get_workout_program"),
        ("description", .str "Generate a workout program based on user data"),
        ("strict", .bool false),
        ("parameters", workoutParameters)])]]

def SYSTEM_PROMPT : String :=
  "\n"
  ++ "Create a system to analyze user exercise history, and generate a customized weekly exercise plan that aims to improve the user\x27s specific activity. \n"
  ++ "\n"
  ++ "**Tailor the plan to the sport that the user plays.** Additionally, adapt the plan according to any new input from the user.\n"
  ++ "\n"
  ++ "\x23 Steps\n"
  ++ "\n"
  ++ "1. **Analyze Exercise History**: The exercise history is in this format: \n"
  ++ "\n"
  ++ "\x60\x60\x60JSON\n"
  ++ "\x7b\n"
  ++ "    \"athlete_type\": <an enum of either \"Runner\", \"Cyclist\", \"Swimmer\", \"Other\">,\n"
  ++ "    \"data\": [\n"
  ++ "        \x7b\n"
  ++ "           \"avg_split\": <some value of type float>,\n"
  ++ "           \"avg_distance\": <some value of type float>\n"
  ++ "        \x7d\n"
  ++ "    ],\n"
  ++ "    \"description\": <a description of the user of type string>\n"
  ++ "\x7d\n"
  ++ "\x60\x60\x60\n"
  ++ "\n"
  ++ "If the \x60athelete_type\x60 is \"Other\", the description will **always** provide context about the user. Also, the exercise history will not be given.\n"
  ++ "\n"
  ++ "The \x60data\x60 attribute will not be included in the exercise history object if the user is of type \"Other\".\n"
  ++ "\n"
  ++ "2. **Identify Goals**: Understand the user\x27s goal for improvement in the specific activity (e.g., increase endurance, enhance strength, improve flexibility).\n"
  ++ "3. **Create a Weekly Plan**: \n"
  ++ "Formulate a personalized weekly exercise plan that aligns with the user\x27s goals, ensuring it\x27s balanced and progressive. \n"
  ++ "Always use the get_workout_program function to generate the user\x27s workout plan. \n"
  ++ "Always name specific exercises the user must perform (e.g. \"bicep curls\" instead of \"upper body strength\")\n"
  ++ "\n"
  ++ "**Example input: ** athlete_type=\x27Other\x27 description=\x27Male. 170LBS. 6 feet tall. Wants to gain 15 LBS of muscle mass. Max bench press: 170LBS. Max dead lift: 100LBS.\x27\n"
  ++ "\n"
  ++ "** Correct output: **\n"
  ++ "\n"
  ++ "\x60\x60\x60JSON\n"
  ++ "\x7b\n"
  ++ "  \"activities\": [\n"
  ++ "    \x7b\n"
  ++ "      \"activityName\": \"Bench Press\",\n"
  ++ "      \"description\": \"Upper Body Strength\",\n"
  ++ "      \"day\": \"Monday\",\n"
  ++ "      \"sets\": 4,\n"
  ++ "      \"reps\": 12\n"
  ++ "    \x7d,\n"
  ++ "    \x7b\n"
  ++ "      \"activityName\": \"Arnolds Press\",\n"
  ++ "      \"description\": \"Upper Body Strength\",\n"
  ++ "      \"day\": \"Monday\",\n"
  ++ "      \"sets\": 3,\n"
  ++ "      \"reps\": 12\n"
  ++ "    \x7d,\n"
  ++ "    \x7b\n"
  ++ "      \"activityName\": \"Bent-over Rows\",\n"
  ++ "      \"description\": \"Upper Body Strength\",\n"
  ++ "      \"day\": \"Monday\",\n"
  ++ "      \"sets\": 4,\n"
  ++ "      \"reps\": 12\n"
  ++ "    \x7d,\n"
  ++ "    \x7b\n"
  ++ "      \"activityName\": \"Tricep Pushdowns\",\n"
  ++ "      \"description\": \"Upper Body Strength\",\n"
  ++ "      \"day\": \"Monday\",\n"
  ++ "      \"sets\": 3,\n"
  ++ "      \"reps\": 15\n"
  ++ "    \x7d,\n"
  ++ "    \x7b\n"
  ++ "      \"activityName\": \"Dumbbell Bicep Curls\",\n"
  ++ "      \"description\": \"Upper Body Strength\",\n"
  ++ "      \"day\": \"Monday\",\n"
  ++ "      \"sets\": 3,\n"
  ++ "      \"reps\": 12\n"
  ++ "    \x7d,\n"
  ++ "    \x7b\n"
  ++ "      \"activityName\": \"Deadlift\",\n"
  ++ "      \"description\": \"Lower Body Strength\",\n"
  ++ "      \"day\": \"Tuesday\",\n"
  ++ "      \"sets\": 4,\n"
  ++ "      \"reps\": 10\n"
  ++ "    \x7d,\n"
  ++ "    \x7b\n"
  ++ "      \"activityName\": \"Squats\",\n"
  ++ "      \"description\": \"Lower Body Strength\",\n"
  ++ "      \"day\": \"Tuesday\",\n"
  ++ "      \"sets\": 4,\n"
  ++ "      \"reps\": 12\n"
  ++ "    \x7d,\n"
  ++ "    \x7b\n"
  ++ "      \"activityName\": \"Leg Press\",\n"
  ++ "      \"description\": \"Lower Body Strength\",\n"
  ++ "      \"day\": \"Tuesday\",\n"
  ++ "      \"sets\": 3,\n"
  ++ "      \"reps\": 12\n"
  ++ "    \x7d,\n"
  ++ "    \x7b\n"
  ++ "      \"activityName\": \"Calf Raises\",\n"
  ++ "      \"description\": \"Lower Body Strength\",\n"
  ++ "      \"day\": \"Tuesday\",\n"
  ++ "      \"sets\": 3,\n"
  ++ "      \"reps\": 15\n"
  ++ "    \x7d,\n"
  ++ "    \x7b\n"
  ++ "      \"activityName\": \"Incline Dumbbell Press\",\n"
  ++ "      \"description\": \"Hypertrophy Focus\",\n"
  ++ "      \"day\": \"Thursday\",\n"
  ++ "      \"sets\": 3,\n"
  ++ "      \"reps\": 12\n"
  ++ "    \x7d,\n"
  ++ "    \x7b\n"
  ++ "      \"activityName\": \"Lateral Raises\",\n"
  ++ "      \"description\": \"Hypertrophy Focus\",\n"
  ++ "      \"day\": \"Thursday\",\n"
  ++ "      \"sets\": 3,\n"
  ++ "      \"reps\": 15\n"
  ++ "    \x7d,\n"
  ++ "    \x7b\n"
  ++ "      \"activityName\": \"Seated Rows\",\n"
  ++ "      \"description\": \"Hypertrophy Focus\",\n"
  ++ "      \"day\": \"Thursday\",\n"
  ++ "      \"sets\": 3,\n"
  ++ "      \"reps\": 12\n"
  ++ "    \x7d,\n"
  ++ "    \x7b\n"
  ++ "      \"activityName\": \"Skull Crushers\",\n"
  ++ "      \"description\": \"Hypertrophy Focus\",\n"
  ++ "      \"day\": \"Thursday\",\n"
  ++ "      \"sets\": 3,\n"
  ++ "      \"reps\": 15\n"
  ++ "    \x7d,\n"
  ++ "    \x7b\n"
  ++ "      \"activityName\": \"Hammer Curls\",\n"
  ++ "      \"description\": \"Hypertrophy Focus\",\n"
  ++ "      \"day\": \"Thursday\",\n"
  ++ "      \"sets\": 3,\n"
  ++ "      \"reps\": 12\n"
  ++ "    \x7d,\n"
  ++ "    \x7b\n"
  ++ "      \"activityName\": \"Romanian Deadlifts\",\n"
  ++ "      \"description\": \"Lower Body and Core\",\n"
  ++ "      \"day\": \"Friday\",\n"
  ++ "      \"sets\": 3,\n"
  ++ "      \"reps\": 12\n"
  ++ "    \x7d,\n"
  ++ "    \x7b\n"
  ++ "      \"activityName\": \"Lunges\",\n"
  ++ "      \"description\": \"Lower Body and Core\",\n"
  ++ "      \"day\": \"Friday\",\n"
  ++ "      \"sets\": 3,\n"
  ++ "      \"reps\": 12\n"
  ++ "    \x7d,\n"
  ++ "    \x7b\n"
  ++ "      \"activityName\": \"Plank\",\n"
  ++ "      \"description\": \"Lower Body and Core\",\n"
  ++ "      \"day\": \"Friday\",\n"
  ++ "      \"sets\": 3,\n"
  ++ "      \"reps\": 1\n"
  ++ "    \x7d,\n"
  ++ "    \x7b\n"
  ++ "      \"activityName\": \"Abdominal Crunches\",\n"
  ++ "      \"description\": \"Lower Body and Core\",\n"
  ++ "      \"day\": \"Friday\",\n"
  ++ "      \"sets\": 3,\n"
  ++ "      \"reps\": 20\n"
  ++ "    \x7d,\n"
  ++ "    \x7b\n"
  ++ "      \"activityName\": \"Kettlebell Exercises\",\n"
  ++ "      \"description\": \"Functional and Flexibility\",\n"
  ++ "      \"day\": \"Sunday\",\n"
  ++ "      \"sets\": 3,\n"
  ++ "      \"reps\": 15\n"
  ++ "    \x7d,\n"
  ++ "    \x7b\n"
  ++ "      \"activityName\": \"Stretching\",\n"
  ++ "      \"description\": \"Functional and Flexibility\",\n"
  ++ "      \"day\": \"Sunday\",\n"
  ++ "      \"sets\": 1,\n"
  ++ "      \"reps\": 30\n"
  ++ "    \x7d\n"
  ++ "  ]\n"
  ++ "\x7d\n"
  ++ "\x60\x60\x60\n"
  ++ "\n"
  ++ "**Example input: ** athlete_type=\x27Runner\x27 data=Data(avg_split=5.25, avg_distance=10.0) description=\x27Female. 150LBS. 5ft, 6in.\x27\n"
  ++ "\n"
  ++ "** Correct output: **\n"
  ++ "\n"
  ++ "\x60\x60\x60JSON\n"
  ++ "\x7b\n"
  ++ "    \"activities\": [\n"
  ++ "        \x7b\n"
  ++ "            \"activityName\": \"Distance Run\",\n"
  ++ "            \"description\": \"A steady-paced run to build endurance.\",\n"
  ++ "            \"day\": \"Monday\",\n"
  ++ "            \"sets\": 1,\n"
  ++ "            \"reps\": 1\n"
  ++ "        \x7d,\n"
  ++ "        \x7b\n"
  ++ "            \"activityName\": \"Interval Training\",\n"
  ++ "            \"description\": \"Short bursts of high-intensity running with rest in between.\",\n"
  ++ "            \"day\": \"Tuesday\",\n"
  ++ "            \"sets\": 6,\n"
  ++ "            \"reps\": 400\n"
  ++ "        \x7d,\n"
  ++ "        \x7b\n"
  ++ "            \"activityName\": \"Recovery Run\",\n"
  ++ "            \"description\": \"Light run to aid recovery and build stamina.\",\n"
  ++ "            \"day\": \"Wednesday\",\n"
  ++ "            \"sets\": 1,\n"
  ++ "            \"reps\": 1\n"
  ++ "        \x7d,\n"
  ++ "        \x7b\n"
  ++ "            \"activityName\": \"Tempo Run\",\n"
  ++ "            \"description\": \"Run at a challenging but sustainable pace to enhance threshold.\",\n"
  ++ "            \"day\": \"Thursday\",\n"
  ++ "            \"sets\": 1,\n"
  ++ "            \"reps\": 1\n"
  ++ "        \x7d,\n"
  ++ "        \x7b\n"
  ++ "            \"activityName\": \"Cross-Training\",\n"
  ++ "            \"description\": \"Incorporate other activities like cycling or swimming.\",\n"
  ++ "            \"day\": \"Friday\",\n"
  ++ "            \"sets\": 3,\n"
  ++ "            \"reps\": 10\n"
  ++ "        \x7d,\n"
  ++ "        \x7b\n"
  ++ "            \"activityName\": \"Long Run\",\n"
  ++ "            \"description\": \"Run at a conversational pace to build endurance.\",\n"
  ++ "            \"day\": \"Saturday\",\n"
  ++ "            \"sets\": 1,\n"
  ++ "            \"reps\": 1\n"
  ++ "        \x7d,\n"
  ++ "        \x7b\n"
  ++ "            \"activityName\": \"Rest Day\",\n"
  ++ "            \"description\": \"Day off from running to recover.\",\n"
  ++ "            \"day\": \"Sunday\",\n"
  ++ "            \"sets\": 0,\n"
  ++ "            \"reps\": 0\n"
  ++ "        \x7d\n"
  ++ "    ]\n"
  ++ "\x7d\n"
  ++ "\x60\x60\x60\n"
  ++ "\n"
  ++ "4. **Incorporate User Input**: Adjust the weekly plan based on any new input or changes in user preferences, needs, or constraints.\n"
  ++ ""

/-! ## Chat-completions layer and exception flow -/

/-- An opaque Python exception value; `retryError` models tenacity wrapping
the final exception once the stop condition is reached. -/
inductive Exn where
  | err (msg : String)
  | retryError (e : Exn)
deriving Repr, DecidableEq

/-- Either a normally returned Python value or a raised exception. -/
inductive PyOutcome (α : Type) where
  | ok (v : α)
  | raised (e : Exn)
deriving Repr, DecidableEq

structure FunctionCall where
  name : String
  arguments : String
deriving Repr, DecidableEq

structure ToolCall where
  function : FunctionCall
deriving Repr, DecidableEq

structure ChoiceMessage where
  tool_calls : List ToolCall
deriving Repr, DecidableEq

structure Choice where
  message : ChoiceMessage
deriving Repr, DecidableEq

structure ChatResponse where
  choices : List Choice
deriving Repr, DecidableEq

/-- What `chat_completion_request` hands back to its caller: either a real
completion response, or — because the body catches every exception and
`return e`s it — an exception object in place of a response. -/
inductive ChatValue where
  | resp (r : ChatResponse)
  | exn (e : Exn)
deriving Repr, DecidableEq

/-- The external OpenAI client, as an oracle: the outcome
(`ok response` or a raised exception) of the k-th call made to
`client.chat.completions.create` in this request.  The call counter is
threaded through the functions below. -/
def Client : Type := Nat → Except Exn ChatResponse

structure Message where
  role : String
  content : String
deriving Repr, DecidableEq

/-- The request sent to the external completion service:
`{model, messages, tools, tool_choice}`. -/
structure ChatRequest where
  model : String
  messages : List Message
  tools : Json
  tool_choice : Json

/-- The undecorated body of `chat_completion_request`: perform one call to
the external client; on success return the response, on exception catch it,
log, and return the exception itself as the function value.  The body
therefore never raises. -/
def chatBody (client : Client) (n : Nat) : PyOutcome ChatValue × Nat :=
  match client n with
  | .ok r => (.ok (.resp r), n + 1)
  | .error e => (.ok (.exn e), n + 1)

/-- The tenacity `retry` combinator with `stop_after_attempt`: run the body;
a normal return is passed through, a raised exception triggers another
attempt until the allotted attempts are spent, after which a `RetryError`
wrapping the last exception is raised.  (The randomized exponential wait
between attempts has no functional effect and is not modelled.) -/
def tenacityRetry {α : Type} : Nat → (Nat → PyOutcome α × Nat) → Nat → PyOutcome α × Nat
  | 0, body, n => body n
  | attempts + 1, body, n =>
    match body n with
    | (.ok v, n2) => (.ok v, n2)
    | (.raised e, n2) =>
      if attempts = 0 then (.raised (.retryError e), n2)
      else tenacityRetry attempts body n2

/-- `chat_completion_request` as deployed: the body wrapped in
`@retry(wait=wait_random_exponential(multiplier=1, max=40), stop=stop_after_attempt(3))`. -/
def chat_completion_request (client : Client) (n : Nat) : PyOutcome ChatValue × Nat :=
  tenacityRetry 3 (chatBody client) n

/-! ## The `POST /workout` handler (`read_root`) -/

/-- Failures of the request pipeline as surfaced over HTTP: a pydantic
validation error (422), or an uncaught Python exception inside the handler
(500): `AttributeError` from reading `.choices` on an exception object,
`IndexError` from an empty `choices`/`tool_calls` list,
`json.JSONDecodeError` from `json.loads`, `TypeError` from subscripting a
non-dict, `KeyError` from a missing `activities` key, or a raised
`RetryError` escaping the invoker. -/
inductive HttpError where
  | validationError (e : VError)
  | attributeError
  | indexError
  | jsonDecodeError
  | typeError
  | keyError
  | unhandled (e : Exn)
deriving Repr, DecidableEq

/-- The two messages composed by `read_root`: the fixed system prompt, then
a user message holding `str(exerciseHistory)`. -/
def workoutMessages (eh : ExerciseHistory) : List Message :=
  [{ role := "system", content := SYSTEM_PROMPT },
   { role := "user", content := strExerciseHistory eh }]

/-- The forced tool choice passed on every call. -/
def workoutToolChoice : Json :=
  .obj [("type", .str "function"),
        ("function", .obj [("name", .str "get_workout_program")])]

/-- The full request `read_root` hands to `chat_completion_request`. -/
def workoutRequest (eh : ExerciseHistory) : ChatRequest :=
  { model := GPT_MODEL
    messages := workoutMessages eh
    tools := TOOLS
    tool_choice := workoutToolChoice }

/-- The extraction performed by `read_root` on the value returned by the
invoker:
`json.loads(chat_response.choices[0].message.tool_calls[0].function.arguments)["activities"]`.
Reading `.choices` on an exception object raises `AttributeError`; the two
list subscripts raise `IndexError` when empty; `json.loads` raises on
malformed input; subscripting a non-dict raises `TypeError`; a missing
`activities` key raises `KeyError`. -/
def extractActivities : ChatValue → Except HttpError Json
  | .exn _ => .error .attributeError
  | .resp r =>
    match r.choices with
    | [] => .error .indexError
    | c :: _ =>
      match c.message.tool_calls with
      | [] => .error .indexError
      | tc :: _ =>
        match json_loads tc.function.arguments with
        | none => .error .jsonDecodeError
        | some (.obj kvs) =>
          match lookupLast kvs "activities" with
          | some a => .ok a
          | none => .error .keyError
        | some _ => .error .typeError

/-- The trace of one execution of the `read_root` handler on a validated
input: the request it sent, how many external calls were performed, and the
HTTP outcome. -/
structure HandlerTrace where
  request : ChatRequest
  calls : Nat
  result : Except HttpError Json

/-- The `read_root` handler body after validation: compose the messages,
invoke `chat_completion_request`, and extract the activities array.  A
raised exception from the invoker (never produced by the deployed body)
would propagate unhandled. -/
def read_root (client : Client) (eh : ExerciseHistory) (n : Nat) : HandlerTrace :=
  match chat_completion_request client n with
  | (.ok v, n2) => { request := workoutRequest eh, calls := n2 - n, result := extractActivities v }
  | (.raised e, n2) => { request := workoutRequest eh, calls := n2 - n, result := .error (.unhandled e) }

/-- The whole `POST /workout` endpoint: FastAPI validates the JSON body
against `ExerciseHistory` first — a validation failure is returned as a 422
before any external call — and only then runs the handler.  Returns the
HTTP outcome and the number of external calls made. -/
def workout_endpoint (client : Client) (body : Json) : Except HttpError Json × Nat :=
  match validateEH body with
  | .error e => (.error (.validationError e), 0)
  | .ok eh =>
    let t := read_root client eh 0
    (t.result, t.calls)

/-! ## Concrete stub clients and inputs used by the claim theorems -/

/-- The exception raised by the C1 stub on its first two calls. -/
def c1Exn : Exn := .err "boom"

/-- The function-arguments payload the C1 stub would return on its third
call. -/
def c1ThirdPayload : String := "\x7b\"activities\": [\"third\"]\x7d"

/-- A stub external client that raises on the first two calls and succeeds
on the third, as prescribed by the spec's retry test. -/
def c1Stub : Client := fun n =>
  if n < 2 then .error c1Exn
  else .ok ⟨[⟨⟨[⟨⟨"get_workout_program", c1ThirdPayload⟩⟩]⟩⟩]⟩

def c1Input : ExerciseHistory := ⟨"Other", none, "ctx"⟩

/-- A stub external client that raises on every call. -/
def c2Client : Client := fun _ => .error (.err "down")

/-- A request body whose `athlete_type` is outside
\x7bRunner, Cyclist, Swimmer, Other\x7d. -/
def c3Cex : Json := .obj [("athlete_type", .str "Gymnast"), ("description", .str "x")]

/-- A stub client answering with a well-formed tool call. -/
def c3Client : Client :=
  fun _ => .ok ⟨[⟨⟨[⟨⟨"get_workout_program", "\x7b\"activities\": []\x7d"⟩⟩]⟩⟩]⟩

/-- A concrete arguments string: a JSON encoding of an object holding one
activity under the `activities` key. -/
def c4Args : String :=
  "\x7b\"activities\": [\x7b\"activityName\": \"Bench Press\", \"description\": \"Upper Body\", \"day\": \"Monday\", \"sets\": 4, \"reps\": 12\x7d]\x7d"

/-- The array encoded under `activities` in `c4Args`. -/
def c4Activities : List Json :=
  [.obj [("activityName", .str "Bench Press"), ("description", .str "Upper Body"),
         ("day", .str "Monday"), ("sets", .num 4 0), ("reps", .num 12 0)]]

def c4Client : Client := fun _ => .ok ⟨[⟨⟨[⟨⟨"get_workout_program", c4Args⟩⟩]⟩⟩]⟩

/-- A Variant-B body with `athlete_type = "Other"` and a well-formed `data`
object present. -/
def c7Body : Json := .obj [("athlete_type", .str "Other"),
  ("data", .obj [("avg_split", .num 5 0), ("avg_distance", .num 10 0)]),
  ("description", .str "context")]

def c7Client : Client :=
  fun _ => .ok ⟨[⟨⟨[⟨⟨"get_workout_program", "\x7b\"activities\": []\x7d"⟩⟩]⟩⟩]⟩

/-- A stub client whose tool-call arguments are not well-formed JSON. -/
def c8BadClient : Client := fun _ => .ok ⟨[⟨⟨[⟨⟨"get_workout_program", "not json"⟩⟩]⟩⟩]⟩

/-- A stub client whose tool-call arguments parse to an object without an
`activities` key. -/
def c8NoKeyClient : Client :=
  fun _ => .ok ⟨[⟨⟨[⟨⟨"get_workout_program", "\x7b\"plan\": []\x7d"⟩⟩]⟩⟩]⟩

/-! ## Helper lemmas -/

/-- One successful external call: the decorated invoker returns the response
after exactly one attempt. -/
theorem ccr_of_client_ok (client : Client) (n : Nat) (r : ChatResponse)
    (h : client n = .ok r) :
    chat_completion_request client n = (.ok (.resp r), n + 1) := by
  simp [chat_completion_request, tenacityRetry, chatBody, h]

/-- One raising external call: the exception is caught inside the body and
returned as a value after exactly one attempt, so the retry decorator sees a
normal return. -/
theorem ccr_of_client_err (client : Client) (n : Nat) (e : Exn)
    (h : client n = .error e) :
    chat_completion_request client n = (.ok (.exn e), n + 1) := by
  simp [chat_completion_request, tenacityRetry, chatBody, h]

/-- Shape of the handler trace when the external call succeeds. -/
theorem read_root_of_client_ok (client : Client) (eh : ExerciseHistory) (n : Nat)
    (r : ChatResponse) (h : client n = .ok r) :
    read_root client eh n =
      { request := workoutRequest eh, calls := 1, result := extractActivities (.resp r) } := by
  rw [read_root, ccr_of_client_ok client n r h]
  simp

/-- Shape of the handler trace when the external call raises: the handler
reads `.choices` on the returned exception object and fails. -/
theorem read_root_of_client_err (client : Client) (eh : ExerciseHistory) (n : Nat)
    (e : Exn) (h : client n = .error e) :
    read_root client eh n =
      { request := workoutRequest eh, calls := 1, result := .error .attributeError } := by
  rw [read_root, ccr_of_client_err client n e h]
  simp [extractActivities]

/-- The request the handler sends does not depend on the client's behaviour. -/
theorem read_root_request (client : Client) (eh : ExerciseHistory) (n : Nat) :
    (read_root client eh n).request = workoutRequest eh := by
  rcases h : chat_completion_request client n with ⟨out, n2⟩
  cases out <;> simp [read_root, h]

/-- A `data` object missing `avg_split` is rejected. -/
theorem validateData_missing_split (dkvs : List (String × Json))
    (h : lookupLast dkvs "avg_split" = none) :
    validateData (.obj dkvs) = .error (.missing ["data", "avg_split"]) := by
  simp [validateData, h]

/-- A `data` object with a non-numeric `avg_split` is rejected. -/
theorem validateData_nonnumeric_split (dkvs : List (String × Json)) (v : Json)
    (h1 : lookupLast dkvs "avg_split" = some v) (h2 : coerceFloat v = none) :
    validateData (.obj dkvs) = .error (.notFloat ["data", "avg_split"]) := by
  simp [validateData, h1, h2]

/-- A `data` object missing `avg_distance` is rejected (whatever the state
of its `avg_split` field). -/
theorem validateData_missing_dist (dkvs : List (String × Json))
    (h : lookupLast dkvs "avg_distance" = none) :
    ∃ e, validateData (.obj dkvs) = .error e := by
  cases h1 : lookupLast dkvs "avg_split" with
  | none => exact ⟨.missing ["data", "avg_split"], by simp [validateData, h1]⟩
  | some v =>
    cases h2 : coerceFloat v with
    | none => exact ⟨.notFloat ["data", "avg_split"], by simp [validateData, h1, h2]⟩
    | some a => exact ⟨.missing ["data", "avg_distance"], by simp [validateData, h1, h2, h]⟩

/-- A `data` object with a non-numeric `avg_distance` is rejected (whatever
the state of its `avg_split` field). -/
theorem validateData_nonnumeric_dist (dkvs : List (String × Json)) (v : Json)
    (hd : lookupLast dkvs "avg_distance" = some v) (hv : coerceFloat v = none) :
    ∃ e, validateData (.obj dkvs) = .error e := by
  cases h1 : lookupLast dkvs "avg_split" with
  | none => exact ⟨.missing ["data", "avg_split"], by simp [validateData, h1]⟩
  | some w =>
    cases h2 : coerceFloat w with
    | none => exact ⟨.notFloat ["data", "avg_split"], by simp [validateData, h1, h2]⟩
    | some a => exact ⟨.notFloat ["data", "avg_distance"], by simp [validateData, h1, h2, hd, hv]⟩

/-- A body whose present `data` object fails its own validation is rejected
as a whole (whatever the state of the other fields). -/
theorem validateEH_error_of_data (kvs dkvs : List (String × Json)) (e : VError)
    (hd : lookupLast kvs "data" = some (.obj dkvs))
    (he : validateData (.obj dkvs) = .error e) :
    ∃ e2, validateEH (.obj kvs) = .error e2 := by
  cases hat : lookupLast kvs "athlete_type" with
  | none => exact ⟨.missing ["athlete_type"], by simp [validateEH, hat]⟩
  | some tv =>
    cases htv : coerceStr tv with
    | none => exact ⟨.notString ["athlete_type"], by simp [validateEH, hat, htv]⟩
    | some t => exact ⟨e, by simp [validateEH, hat, htv, hd, he]⟩

/-- A body missing `description` is rejected (whatever the state of the
other fields). -/
theorem validateEH_missing_description (kvs : List (String × Json))
    (h : lookupLast kvs "description" = none) :
    ∃ e, validateEH (.obj kvs) = .error e := by
  cases hat : lookupLast kvs "athlete_type" with
  | none => exact ⟨.missing ["athlete_type"], by simp [validateEH, hat]⟩
  | some tv =>
    cases htv : coerceStr tv with
    | none => exact ⟨.notString ["athlete_type"], by simp [validateEH, hat, htv]⟩
    | some t =>
      cases hd : lookupLast kvs "data" with
      | none => exact ⟨.missing ["description"], by simp [validateEH, hat, htv, hd, h]⟩
      | some dv =>
        cases dv with
        | null => exact ⟨.missing ["description"], by simp [validateEH, hat, htv, hd, h]⟩
        | obj dkvs =>
          cases hvd : validateData (.obj dkvs) with
          | error e => exact ⟨e, by simp [validateEH, hat, htv, hd, hvd]⟩
          | ok d => exact ⟨.missing ["description"], by simp [validateEH, hat, htv, hd, hvd, h]⟩
        | bool b => exact ⟨.notModel ["data"], by simp [validateEH, validateData, hat, htv, hd]⟩
        | num m ex => exact ⟨.notModel ["data"], by simp [validateEH, validateData, hat, htv, hd]⟩
        | str sv => exact ⟨.notModel ["data"], by simp [validateEH, validateData, hat, htv, hd]⟩
        | arr xs => exact ⟨.notModel ["data"], by simp [validateEH, validateData, hat, htv, hd]⟩

/-! ## Claim theorems -/

/-- Claim C1 (code bug): the spec's retry test fails on the code.  With a
stub client that raises on the first two calls and succeeds on the third,
`chat_completion_request` does not retry at all: the first exception is
caught inside the body and returned as a value after exactly one external
call, and the handler then fails with an attribute-access error instead of
returning the third call's payload.  The `@retry` decorator (base 1, cap 40,
3 attempts) never triggers because the wrapped body never raises. -/
theorem claim_C1_no_retry_occurs :
    chat_completion_request c1Stub 0 = (.ok (.exn c1Exn), 1) ∧
    (read_root c1Stub c1Input 0).calls = 1 ∧
    (read_root c1Stub c1Input 0).result = .error .attributeError := ⟨rfl, rfl, rfl⟩

/-- Claim C2: when every attempt of the external call raises, the invoker
returns the (last) exception as a value instead of re-raising it, and the
handler — which does not check for this case — fails with an
attribute-access error when it reads `.choices` on the returned object. -/
theorem claim_C2_exception_as_value (client : Client) (eh : ExerciseHistory) (e : Exn)
    (h : ∀ k, client k = .error e) :
    chat_completion_request client 0 = (.ok (.exn e), 1) ∧
    (read_root client eh 0).result = .error .attributeError := by
  refine ⟨ccr_of_client_err client 0 e (h 0), ?_⟩
  rw [read_root_of_client_err client eh 0 e (h 0)]

/-- Witness for C2 at a concrete always-raising client and input. -/
theorem claim_C2_witness :
    chat_completion_request c2Client 0 = (.ok (.exn (.err "down")), 1) ∧
    (read_root c2Client ⟨"Other", none, "c"⟩ 0).result = .error .attributeError :=
  claim_C2_exception_as_value c2Client ⟨"Other", none, "c"⟩ (.err "down") (fun _ => rfl)

/-- Counterexample to claim C3 as stated: the validator is claimed to reject
any body whose `athlete_type` lies outside \x7bRunner, Cyclist, Swimmer,
Other\x7d, but the body `c3Cex` with `athlete_type = "Gymnast"` is accepted
(`athlete_type` is a plain `str` in the source) and reaches the Model
Invoker (one external call is made). -/
theorem claim_C3_counterexample :
    validateEH c3Cex = .ok ⟨"Gymnast", none, "x"⟩ ∧
    (workout_endpoint c3Client c3Cex).2 = 1 := ⟨rfl, rfl⟩

/-- Claim C3 (amended): the validator rejects, before any external call,
bodies missing a required field — `athlete_type`, `description`, or a
required key (`avg_split`, `avg_distance`) of a present `data` object — and
bodies whose numeric fields `avg_split` or `avg_distance` are non-numeric;
but `athlete_type` is declared as a plain string, so no enum check is
performed.  Validation failure always means zero external calls. -/
theorem claim_C3_amended :
    (∀ kvs, lookupLast kvs "athlete_type" = none →
        validateEH (.obj kvs) = .error (.missing ["athlete_type"])) ∧
    (∀ kvs, lookupLast kvs "description" = none →
        ∃ e, validateEH (.obj kvs) = .error e) ∧
    (∀ kvs dkvs, lookupLast kvs "data" = some (.obj dkvs) →
        (lookupLast dkvs "avg_split" = none ∨
         lookupLast dkvs "avg_distance" = none ∨
         (∃ v, lookupLast dkvs "avg_split" = some v ∧ coerceFloat v = none) ∨
         (∃ v, lookupLast dkvs "avg_distance" = some v ∧ coerceFloat v = none)) →
        ∃ e, validateEH (.obj kvs) = .error e) ∧
    (∀ client body e, validateEH body = .error e →
        workout_endpoint client body = (.error (.validationError e), 0)) := by
  refine ⟨?_, ?_, ?_, ?_⟩
  · intro kvs h
    simp [validateEH, h]
  · intro kvs h
    exact validateEH_missing_description kvs h
  · intro kvs dkvs hd hcase
    rcases hcase with h | h | ⟨v, hv1, hv2⟩ | ⟨v, hv1, hv2⟩
    · exact validateEH_error_of_data kvs dkvs _ hd (validateData_missing_split dkvs h)
    · obtain ⟨e, he⟩ := validateData_missing_dist dkvs h
      exact validateEH_error_of_data kvs dkvs e hd he
    · exact validateEH_error_of_data kvs dkvs _ hd (validateData_nonnumeric_split dkvs v hv1 hv2)
    · obtain ⟨e, he⟩ := validateData_nonnumeric_dist dkvs v hv1 hv2
      exact validateEH_error_of_data kvs dkvs e hd he
  · intro client body e h
    simp [workout_endpoint, h]

/-- Witness for the amended C3 at concrete bodies: a missing
`athlete_type`; a missing `description` (with `athlete_type` present and a
valid `data` object present); a present `data` object missing `avg_split`,
missing `avg_distance`, with a non-numeric `avg_split`, and with a
non-numeric `avg_distance`; and a rejected body causing zero external
calls. -/
theorem claim_C3_amended_witness :
    validateEH (.obj [("description", .str "x")]) = .error (.missing ["athlete_type"]) ∧
    (∃ e, validateEH (.obj [("athlete_type", .str "Runner"),
        ("data", .obj [("avg_split", .num 5 0), ("avg_distance", .num 10 0)])]) = .error e) ∧
    (∃ e, validateEH (.obj [("athlete_type", .str "Runner"),
        ("data", .obj [("avg_distance", .num 1 0)]),
        ("description", .str "d")]) = .error e) ∧
    (∃ e, validateEH (.obj [("athlete_type", .str "Runner"),
        ("data", .obj [("avg_split", .num 1 0)]),
        ("description", .str "d")]) = .error e) ∧
    (∃ e, validateEH (.obj [("athlete_type", .str "Runner"),
        ("data", .obj [("avg_split", .str "fast"), ("avg_distance", .num 1 0)]),
        ("description", .str "d")]) = .error e) ∧
    (∃ e, validateEH (.obj [("athlete_type", .str "Runner"),
        ("data", .obj [("avg_split", .num 1 0), ("avg_distance", .bool true)]),
        ("description", .str "d")]) = .error e) ∧
    workout_endpoint c3Client (.obj [("description", .str "x")]) =
      (.error (.validationError (.missing ["athlete_type"])), 0) := by
  refine ⟨claim_C3_amended.1 _ rfl, ?_, ?_, ?_, ?_, ?_, ?_⟩
  · exact claim_C3_amended.2.1 _ rfl
  · exact claim_C3_amended.2.2.1 _ _ rfl (Or.inl rfl)
  · exact claim_C3_amended.2.2.1 _ _ rfl (Or.inr (Or.inl rfl))
  · exact claim_C3_amended.2.2.1 _ _ rfl
      (Or.inr (Or.inr (Or.inl ⟨.str "fast", rfl, rfl⟩)))
  · exact claim_C3_amended.2.2.1 _ _ rfl
      (Or.inr (Or.inr (Or.inr ⟨.bool true, rfl, rfl⟩)))
  · exact claim_C3_amended.2.2.2 c3Client _ _ (claim_C3_amended.1 _ rfl)

/-- Claim C4: whenever the first choice's first tool call carries an
arguments string that is a JSON encoding of `\x7b"activities": A\x7d`, the
handler returns exactly the array `A`, unmodified, with no envelope. -/
theorem claim_C4_roundtrip (client : Client) (eh : ExerciseHistory) (r : ChatResponse)
    (c : Choice) (cs : List Choice) (tc : ToolCall) (tcs : List ToolCall) (A : List Json)
    (hclient : client 0 = .ok r)
    (hc : r.choices = c :: cs)
    (htc : c.message.tool_calls = tc :: tcs)
    (hargs : json_loads tc.function.arguments = some (.obj [("activities", .arr A)])) :
    (read_root client eh 0).result = .ok (.arr A) := by
  rw [read_root_of_client_ok client eh 0 r hclient]
  simp [extractActivities, hc, htc, hargs, lookupLast]

/-- Witness for C4: with a fixed stub response carrying `c4Args`, the
handler returns exactly the encoded activity array. -/
theorem claim_C4_witness :
    (read_root c4Client ⟨"Runner", none, "r"⟩ 0).result = .ok (.arr c4Activities) :=
  claim_C4_roundtrip c4Client _ _ _ _ _ _ c4Activities rfl rfl rfl (by rfl)

/-- Claim C5: on every request the invoker is called with `tool_choice`
pinned to the single function `get_workout_program`, and the tools list
passed alongside holds exactly that one function, so no other tool is
selectable. -/
theorem claim_C5_tool_choice_pinned (client : Client) (eh : ExerciseHistory) (n : Nat) :
    (read_root client eh n).request.tool_choice =
      Json.obj [("type", .str "function"),
                ("function", .obj [("name", .str "get_workout_program")])] ∧
    (read_root client eh n).request.tools = TOOLS ∧
    (∃ t, TOOLS = Json.arr [t] ∧
      (do
        let f ← jget t "function"
        jget f "name") = some (.str "get_workout_program")) := by
  rw [read_root_request]
  exact ⟨rfl, rfl, ⟨_, rfl, rfl⟩⟩

/-- Claim C6: for every validated input the composed prompt is exactly the
ordered pair of a system message carrying the constant `SYSTEM_PROMPT` and a
user message carrying the debug-style rendering `str(exerciseHistory)`; no
other messages are sent. -/
theorem claim_C6_prompt_messages (client : Client) (eh : ExerciseHistory) (n : Nat) :
    (read_root client eh n).request.messages =
      [{ role := "system", content := SYSTEM_PROMPT },
       { role := "user", content := strExerciseHistory eh }] := by
  rw [read_root_request]; rfl

/-- Claim C7: the documented convention that `data` is absent when
`athlete_type = "Other"` is not enforced: `c7Body` has `athlete_type =
"Other"` together with a well-formed `data` object, is accepted by the
validator, and is passed on to the pipeline (one external call is made). -/
theorem claim_C7_other_with_data_accepted :
    validateEH c7Body = .ok ⟨"Other", some ⟨⟨5, 0⟩, ⟨10, 0⟩⟩, "context"⟩ ∧
    (workout_endpoint c7Client c7Body).2 = 1 := ⟨rfl, rfl⟩

/-- Claim C8: if the first tool call's arguments string is not well-formed
JSON, or parses to an object without an `activities` key, the handler fails
with a server error (`json.JSONDecodeError` resp. `KeyError`), not a silent
empty result, and no automatic retry occurs for this class of failure (still
exactly one external call). -/
theorem claim_C8_parse_failures (client : Client) (eh : ExerciseHistory) (r : ChatResponse)
    (c : Choice) (cs : List Choice) (tc : ToolCall) (tcs : List ToolCall)
    (hclient : client 0 = .ok r)
    (hc : r.choices = c :: cs)
    (htc : c.message.tool_calls = tc :: tcs) :
    (json_loads tc.function.arguments = none →
        (read_root client eh 0).result = .error .jsonDecodeError ∧
        (read_root client eh 0).calls = 1) ∧
    (∀ kvs, json_loads tc.function.arguments = some (.obj kvs) →
        lookupLast kvs "activities" = none →
        (read_root client eh 0).result = .error .keyError ∧
        (read_root client eh 0).calls = 1) := by
  rw [read_root_of_client_ok client eh 0 r hclient]
  constructor
  · intro hbad
    exact ⟨by simp [extractActivities, hc, htc, hbad], rfl⟩
  · intro kvs hparse hkey
    exact ⟨by simp [extractActivities, hc, htc, hparse, hkey], rfl⟩

/-- Witness for C8 at concrete stubs: malformed arguments give a JSON decode
error, a parsed object without `activities` gives a key error, each after
exactly one external call. -/
theorem claim_C8_witness :
    ((read_root c8BadClient ⟨"Other", none, "c"⟩ 0).result = .error .jsonDecodeError ∧
     (read_root c8BadClient ⟨"Other", none, "c"⟩ 0).calls = 1) ∧
    ((read_root c8NoKeyClient ⟨"Other", none, "c"⟩ 0).result = .error .keyError ∧
     (read_root c8NoKeyClient ⟨"Other", none, "c"⟩ 0).calls = 1) := by
  constructor
  · exact (claim_C8_parse_failures c8BadClient _ _ _ _ _ _ rfl rfl rfl).1 rfl
  · exact (claim_C8_parse_failures c8NoKeyClient _ _ _ _ _ _ rfl rfl rfl).2
      [("plan", .arr [])] rfl rfl

/-- Claim C9: for every behaviour of the external client,
`chat_completion_request` performs exactly one external call and never
raises: the body catches every exception and returns it as a value, so the
surrounding retry decorator (which only reacts to raised exceptions) never
triggers a second attempt. -/
theorem claim_C9_single_call_no_raise (client : Client) (n : Nat) :
    (chat_completion_request client n).2 = n + 1 ∧
    ∀ e, (chat_completion_request client n).1 ≠ PyOutcome.raised e := by
  cases h : client n with
  | ok r => rw [ccr_of_client_ok client n r h]; exact ⟨rfl, fun e => by simp⟩
  | error e => rw [ccr_of_client_err client n e h]; exact ⟨rfl, fun e2 => by simp⟩

/-- Claim C10: in the static `TOOLS` schema (sent on every call), the
`required` list naming `activityName`, `description` and `day` is attached
to the top-level `parameters` object, whose only property is `activities`,
while the per-item schema inside the `activities` array carries no
`required` list at all. -/
theorem claim_C10_required_misplaced :
    (do
      let t ← jidx TOOLS 0
      let f ← jget t "function"
      jget f "parameters") = some workoutParameters ∧
    jget workoutParameters "required" =
      some (.arr [.str "activityName", .str "description", .str "day"]) ∧
    (∃ props, jget workoutParameters "properties" = some (.obj props) ∧
        props.map Prod.fst = ["activities"]) ∧
    (do
      let props ← jget workoutParameters "properties"
      let acts ← jget props "activities"
      jget acts "items") = some activityItemSchema ∧
    jget activityItemSchema "required" = none ∧
    (∀ client eh n, (read_root client eh n).request.tools = TOOLS) := by
  refine ⟨rfl, rfl, ⟨_, rfl, rfl⟩, rfl, rfl, ?_⟩
  intro client eh n
  rw [read_root_request]
  rfl

end TrainAI
